import Mathlib

/-
Verification of ResourceCacheDevice (code/components/citizen-resources-client/src/
ResourceCacheDevice.cpp): a shallow embedding of the fetch-on-demand handle state
machine and its device facade, with theorems checking the design document's claims.

Modelling conventions:
- C++ strings are `List Char`; `std::map<std::string, std::string>` is an
  association list.
- `size_t` / `uint64_t` values are `Nat`, with wrap-around written explicitly as
  `% 2 ^ 64` where the source can overflow; `(size_t)-1` is `SIZE_MAX`.
- External collaborators (manifest provider, cache bridge, vfs devices, HTTP
  transport) are an `Env` of response functions; calls into them that matter for
  the claims are also recorded in an `Effect` trace so "no real I/O happened"
  properties are statable.
- Logging-only constructs (`trace`, the diagnostic `g_downloadedSet`,
  `OnCacheDownloadStatus`, the `rcd:error` diagnostic string, request headers and
  the progress callback) change no state that the device ever reads back, and are
  not modelled.
- The asynchronous completion callback of `DoFileGetRequest` is modelled as a
  function `completionCallback`; in blocking mode `EnsureFetched` waits on the
  slot's condition variable until the callback has run, which is modelled by
  applying `completionCallback` with the transport's response before returning.
  In non-blocking mode the callback has not yet run when `EnsureFetched` returns.
-/

namespace RCD

/-- Handle slot status. Modelled from the spec: the `HandleData::Status` enum is
declared in ResourceCacheDevice.h (not part of the sources); spec section 3 lists
the states `Empty | NotFetched | Fetching | Fetched | Error`, matching the
`StatusEmpty`/`StatusNotFetched`/`StatusFetching`/`StatusFetched`/`StatusError`
constants used throughout the .cpp file. -/
inductive Status where
  | Empty
  | NotFetched
  | Fetching
  | Fetched
  | Error
  deriving DecidableEq

/-- Resolved manifest record (`ResourceCacheEntryList::Entry`), with the fields the
.cpp file uses: `basename`, `resourceName`, `referenceHash`, `remoteUrl`, `size`,
`extData`. -/
structure Entry where
  basename : List Char
  resourceName : List Char
  referenceHash : List Char
  remoteUrl : List Char
  size : Nat
  extData : List (List Char × List Char)
  deriving DecidableEq

/-- The empty entry, used as the content of a fresh handle slot. -/
def Entry.nil : Entry := ⟨[], [], [], [], 0, []⟩

/-- A cache bridge hit: local path and stored metadata
(`ResourceCache::Entry::GetLocalPath` / `GetMetaData`). -/
structure CacheEntry where
  localPath : List Char
  metaData : List (List Char × List Char)
  deriving DecidableEq

/-- The in-flight HTTP request handle (`handleData->getRequest`), together with the
data the completion callback closure captured (`outFileName`; the URL identifies
the request towards the transport). -/
structure FetchReq where
  url : List Char
  outFileName : List Char
  deriving DecidableEq

/-- One slot of the fixed-capacity handle table. Modelled from the spec: the
`HandleData` struct lives in ResourceCacheDevice.h (not part of the sources); spec
section 3 lists its attributes, and every field below is read or written by the
.cpp file. `parentDevice = none` models a null `fwRefContainer`. -/
structure HandleData where
  status : Status := Status.Empty
  entry : Entry := Entry.nil
  bulkHandle : Bool := false
  parentDevice : Option Nat := none
  parentHandle : Nat := 0
  bulkPtr : Nat := 0
  getRequest : Option FetchReq := none
  metaData : List (List Char × List Char) := []
  downloadProgress : Nat := 0
  downloadSize : Nat := 0
  deriving DecidableEq

/-- A fresh (all defaults, `Empty`) handle slot. -/
def HandleData.init : HandleData := {}

/-- Invalid handle sentinel. Modelled from the spec: `InvalidHandle` comes from the
vfs device interface (header not in the sources); it is `(THandle)-1`, distinct
from every table index. -/
def InvalidHandle : Nat := 2 ^ 64 - 1

/-- Value of `(size_t)-1` on the 64-bit target: the negative-size error sentinel returned
by `Read`/`ReadBulk`/`Seek`. -/
def SIZE_MAX : Nat := 2 ^ 64 - 1

/-- Modulus of `uint64_t` arithmetic. -/
def UINT64_MOD : Nat := 2 ^ 64

/-- Modulus of `uint32_t`/`unsigned long` arithmetic. -/
def UINT32_MOD : Nat := 2 ^ 32

/-- Observable calls into the external collaborators. -/
inductive Effect where
  | parentOpen (dev : Nat) (path : List Char)
  | parentOpenBulk (dev : Nat) (path : List Char)
  | parentRead (dev : Nat) (h : Nat) (size : Nat)
  | parentReadBulk (dev : Nat) (h : Nat) (ptr : Nat) (size : Nat)
  | parentSeek (dev : Nat) (h : Nat) (offset : Int) (seekType : Nat)
  | parentClose (dev : Nat) (h : Nat)
  | parentCloseBulk (dev : Nat) (h : Nat)
  | parentGetLength (dev : Nat) (h : Nat)
  | httpFetch (url : List Char) (outFileName : List Char) (weight : Nat)
  | setRequestWeight (url : List Char) (weight : Int)
  | cacheAdd (outFileName : List Char)
  deriving DecidableEq

/-- Holds (`true`) exactly for a real read against a parent device
(`parentDevice->Read` / `parentDevice->ReadBulk`). -/
def isRealRead : Effect → Bool
  | Effect.parentRead _ _ _ => true
  | Effect.parentReadBulk _ _ _ _ => true
  | _ => false

/-- Holds (`true`) exactly for a `SetRequestWeight` call on the in-flight request. -/
def isSetWeight : Effect → Bool
  | Effect.setRequestWeight _ _ => true
  | _ => false

/-- Holds (`true`) exactly for a `DoFileGetRequest` dispatch against the HTTP transport. -/
def isHttpFetch : Effect → Bool
  | Effect.httpFetch _ _ _ => true
  | _ => false

/-- Responses of the external collaborators. Devices returned by `vfs::GetDevice`
are numbered; `none` is a null device reference. `fetchResp url = (result, outSize)`
is the argument pair the transport passes to the completion callback for `url`. -/
structure Env where
  getResource : List Char → Option Nat := fun _ => none
  getEntry : Nat → List Char → Option Entry := fun _ _ => none
  cacheLookup : List Char → Option CacheEntry := fun _ => none
  getDevice : List Char → Option Nat := fun _ => none
  devOpen : Nat → List Char → Nat := fun _ _ => 0
  devOpenBulk : Nat → List Char → Nat × Nat := fun _ _ => (0, 0)
  devRead : Nat → Nat → Nat → Nat := fun _ _ _ => 0
  devReadBulk : Nat → Nat → Nat → Nat → Nat := fun _ _ _ _ => 0
  devSeek : Nat → Nat → Int → Nat → Nat := fun _ _ _ _ => 0
  devClose : Nat → Nat → Bool := fun _ _ => true
  devCloseBulk : Nat → Nat → Bool := fun _ _ => true
  devGetLength : Nat → Nat → Nat := fun _ _ => 0
  devGetLengthPath : Nat → List Char → Nat := fun _ _ => 0
  fetchResp : List Char → Bool × Nat := fun _ => (false, 0)

/-- Index semantics of `std::string::find_first_of(c)`: index of the first occurrence, `none` for
`npos`. -/
def findFirstOf (c : Char) : List Char → Option Nat
  | [] => none
  | x :: xs => if x = c then some 0 else (findFirstOf c xs).map (fun n => n + 1)

/-- Index semantics of `std::string::find_last_of(c)`: index of the last occurrence, `none` for
`npos`. -/
def findLastOf (c : Char) (s : List Char) : Option Nat :=
  match findFirstOf c s.reverse with
  | some i => some (s.length - 1 - i)
  | none => none

/-- Lookup on a `std::map` as used on `extData`: `operator[]` yields the stored value,
or the default-constructed empty string when the key is absent. -/
def mapGet (m : List (List Char × List Char)) (k : List Char) : List Char :=
  match m.find? (fun p => p.1 = k) with
  | some p => p.2
  | none => []

/-- Value of the leading decimal-digit run of a string (stops at the first
non-digit). -/
def digitsVal : List Char → Nat → Nat
  | c :: cs, acc => if c.isDigit then digitsVal cs (acc * 10 + (c.toNat - 48)) else acc
  | [], acc => acc

/-- C `atoi`, for the plain decimal strings (optionally negative) that appear in
manifest extension metadata; no whitespace or overflow handling is needed for
those inputs. -/
def atoi (s : List Char) : Int :=
  match s with
  | '-' :: rest => - (Int.ofNat (digitsVal rest 0))
  | _ => Int.ofNat (digitsVal s 0)

/-- C `strtoul(s, nullptr, 10)` for the plain decimal strings in manifest
extension metadata. -/
def strtoul10 (s : List Char) : Nat := digitsVal s 0

/-- Tests whether `needle` occurs at the start of the second list. -/
def listStartsWith : List Char → List Char → Bool
  | [], _ => true
  | _ :: _, [] => false
  | c :: cs, x :: xs => c = x && listStartsWith cs xs

/-- Semantics of `std::string::find(needle) != npos`: `needle` occurs somewhere
in the haystack. -/
def strFind (needle : List Char) : List Char → Bool
  | [] => listStartsWith needle []
  | x :: xs => listStartsWith needle (x :: xs) || strFind needle xs

/-- Embeds `GetWeightForFileName`: fetch priority from the file extension / name
(`substr(find_last_of('.'))` keeps the dot). With no dot in the name, the source's
`substr(npos)` throws `std::out_of_range`; manifest basenames always carry an
extension, and the fallthrough below returns the name itself (matching none of
the extension tests). -/
def GetWeightForFileName (fileName : List Char) : Nat :=
  let ext := match findLastOf '.' fileName with
    | some i => fileName.drop i
    | none => fileName
  if ext = ".ybn".toList ∨ ext = ".ymap".toList ∨ ext = ".ytyp".toList then 255
  else if ext = ".ydd".toList ∨ ext = ".ydr".toList then 128
  else if ext = ".ytd".toList ∨ ext = ".rpf".toList ∨ ext = ".gfx".toList then 64
  else if (strFind "+hi".toList fileName || strFind "_hi".toList fileName) then 16
  else 32

/-- Embeds `basename.substr(basename.find_last_of('.') + 1)`: the extension without the
dot. With no dot, `npos + 1` wraps to `0` and the whole name is returned. -/
def extAfterDot (basename : List Char) : List Char :=
  match findLastOf '.' basename with
  | some i => basename.drop (i + 1)
  | none => basename

/-- Device-wide state: the fixed handle table `m_handles` (the capacity is the
length, set at construction), `m_blocking`, `m_cachePath`, and `m_pathPrefix`. -/
structure DeviceState where
  handles : List HandleData
  blocking : Bool
  cachePath : List Char
  pathPfx : List Char
  deriving DecidableEq

/-- Embeds `ResourceCacheDevice::GetEntryForFileName`: strip the path prefix, split
`{resource}/{filepath}` at the first slash (with `find_first_of` returning
`npos`, `substr(0, npos)` is the whole string and `substr(npos + 1)` wraps to
`substr(0)`), then resolve the resource and its entry list. -/
def GetEntryForFileName (env : Env) (st : DeviceState) (fileName : List Char) :
    Option Entry :=
  let relativeName := fileName.drop st.pathPfx.length
  let resourceName := match findFirstOf '/' relativeName with
    | some i => relativeName.take i
    | none => relativeName
  let itemName := match findFirstOf '/' relativeName with
    | some i => relativeName.drop (i + 1)
    | none => relativeName
  match env.getResource resourceName with
  | none => none
  | some res => env.getEntry res itemName

/-- The linear scan of `AllocateHandle`'s for-loop: index of the first slot in
`Empty` state. -/
def firstEmptyIdx : List HandleData → Option Nat
  | [] => none
  | h :: rest =>
      if h.status = Status.Empty then some 0
      else (firstEmptyIdx rest).map (fun n => n + 1)

/-- Embeds `ResourceCacheDevice::AllocateHandle`: under the table lock, find the first
`Empty` slot, provisionally mark it `Error` to reserve it, and return its index.
`none` models the `FatalError` (process abort) on exhaustion. -/
def AllocateHandle (st : DeviceState) : Option (Nat × DeviceState) :=
  match firstEmptyIdx st.handles with
  | some i =>
      let slot := st.handles.getD i HandleData.init
      some (i, { st with handles := st.handles.set i { slot with status := Status.Error } })
  | none => none

/-- The completion lambda passed to `DoFileGetRequest` (it runs once per fetch, on
a transport thread). `result`/`outSize0` are the transport's arguments; on success
the size is re-read as `vfs::GetDevice(outFileName)->GetLength(outFileName)` (the
source dereferences that device without a null check, so the `none` arm below is
unreachable in any run that does not crash). Failure or an empty file resolves the
slot to `Error`; success registers the file with the cache, opens it through the
local device (bulk or regular per `bulkHandle`, the handle assigned only when the
device reference is non-null), and then sets `Fetched` unconditionally. Both arms
clear `getRequest` and notify all waiters. -/
def completionCallback (env : Env) (hd : HandleData) (outFileName : List Char)
    (result : Bool) (outSize0 : Nat) : HandleData × List Effect :=
  let outSize := if result then
      match env.getDevice outFileName with
      | some d => env.devGetLengthPath d outFileName
      | none => 0
    else outSize0
  if result = false ∨ outSize = 0 then
    ({ hd with status := Status.Error, getRequest := none }, [])
  else
    let metaData : List (List Char × List Char) :=
      [("filename".toList, hd.entry.basename),
       ("resource".toList, hd.entry.resourceName),
       ("from".toList, hd.entry.remoteUrl)]
    let opened : HandleData × List Effect :=
      match env.getDevice outFileName with
      | some d =>
        if hd.bulkHandle then
          let pb := env.devOpenBulk d outFileName
          ({ hd with parentDevice := some d, parentHandle := pb.1, bulkPtr := pb.2 },
            [Effect.parentOpenBulk d outFileName])
        else
          ({ hd with parentDevice := some d, parentHandle := env.devOpen d outFileName },
            [Effect.parentOpen d outFileName])
      | none => ({ hd with parentDevice := none }, [])
    ({ opened.1 with metaData := metaData, status := Status.Fetched, getRequest := none },
      Effect.cacheAdd outFileName :: opened.2)

/-- Embeds `ResourceCacheDevice::EnsureFetched`. `Fetched` returns `true` at once.
`Fetching` waits on the slot's condition variable in blocking mode (modelled by
running the pending request's completion callback) and then returns `false`
unconditionally, exactly as the source does. Any other status (`NotFetched`,
also the provisional `Error`/`Empty`) dispatches: status becomes `Fetching`, the
staging name `m_cachePath + extension + "_" + referenceHash` is derived, the
weighted request is issued, and `getRequest` is stored; in blocking mode the
thread then waits until the completion callback has resolved the slot and
returns `status == Fetched`. -/
def EnsureFetched (env : Env) (blocking : Bool) (cachePath : List Char)
    (hd : HandleData) : HandleData × Bool × List Effect :=
  if hd.status = Status.Fetched then (hd, true, [])
  else if hd.status = Status.Fetching then
    if blocking then
      match hd.getRequest with
      | some req =>
          let resp := env.fetchResp req.url
          let done := completionCallback env hd req.outFileName resp.1 resp.2
          (done.1, false, done.2)
      | none => (hd, false, [])
    else (hd, false, [])
  else
    let outFileName := cachePath ++ extAfterDot hd.entry.basename
        ++ ('_' :: hd.entry.referenceHash)
    let weight := GetWeightForFileName hd.entry.basename
    let req : FetchReq := { url := hd.entry.remoteUrl, outFileName := outFileName }
    let hd1 : HandleData := { hd with status := Status.Fetching, getRequest := some req }
    let dispatch := Effect.httpFetch hd.entry.remoteUrl outFileName weight
    if blocking then
      let resp := env.fetchResp hd.entry.remoteUrl
      let done := completionCallback env hd1 outFileName resp.1 resp.2
      (done.1, decide (done.1.status = Status.Fetched), dispatch :: done.2)
    else
      (hd1, decide (hd1.status = Status.Fetched), [dispatch])

/-- Embeds `ResourceCacheDevice::OpenInternal`. Resolution failure returns
`InvalidHandle` before any allocation; otherwise a slot is allocated and filled
(`bulkHandle`, `entry`, `status := NotFetched`), the cache bridge is probed for
`referenceHash`, and on a hit `parentDevice` is assigned the (possibly null)
local device; a non-null device opens the cached file (bulk or regular), and only
a valid handle upgrades the slot to `Fetched` with the cache entry's metadata.
`none` models the `FatalError` abort inside `AllocateHandle`. The diagnostic
`g_downloadedSet` probe at the end only logs. -/
def OpenInternal (env : Env) (st : DeviceState) (fileName : List Char)
    (isBulk : Bool) : Option (Nat × DeviceState × List Effect) :=
  match GetEntryForFileName env st fileName with
  | none => some (InvalidHandle, st, [])
  | some entry =>
    match AllocateHandle st with
    | none => none
    | some (idx, st1) =>
      let hd0 : HandleData :=
        { st1.handles.getD idx HandleData.init with
            bulkHandle := isBulk, entry := entry, status := Status.NotFetched }
      let probe : HandleData × List Effect :=
        match env.cacheLookup entry.referenceHash with
        | none => (hd0, [])
        | some ce =>
          let hdA := { hd0 with parentDevice := env.getDevice ce.localPath }
          match env.getDevice ce.localPath with
          | none => (hdA, [])
          | some d =>
            if isBulk then
              let pb := env.devOpenBulk d ce.localPath
              let hdB := { hdA with parentHandle := pb.1, bulkPtr := pb.2 }
              if pb.1 ≠ InvalidHandle then
                ({ hdB with status := Status.Fetched, metaData := ce.metaData },
                  [Effect.parentOpenBulk d ce.localPath])
              else (hdB, [Effect.parentOpenBulk d ce.localPath])
            else
              let ph := env.devOpen d ce.localPath
              let hdB := { hdA with parentHandle := ph }
              if ph ≠ InvalidHandle then
                ({ hdB with status := Status.Fetched, metaData := ce.metaData },
                  [Effect.parentOpen d ce.localPath])
              else (hdB, [Effect.parentOpen d ce.localPath])
      some (idx, { st1 with handles := st1.handles.set idx probe.1 }, probe.2)

/-- Embeds `ResourceCacheDevice::Open`: a read-only device, so `readOnly = false` is
rejected with `InvalidHandle`; otherwise `OpenInternal` with a null bulk
pointer. -/
def Open (env : Env) (st : DeviceState) (fileName : List Char) (readOnly : Bool) :
    Option (Nat × DeviceState × List Effect) :=
  if readOnly then OpenInternal env st fileName false
  else some (InvalidHandle, st, [])

/-- Embeds `ResourceCacheDevice::OpenBulk`: `*ptr = 0` first, then `OpenInternal` in bulk
mode. The second component is the final value of the caller's out-parameter: the
source never writes through it again (`OpenInternal` only null-tests the pointer
and passes `&handleData->bulkPtr`, the slot's own field, to the parent device), so
it is the `0` stored up front. -/
def OpenBulk (env : Env) (st : DeviceState) (fileName : List Char) :
    Option (Nat × DeviceState × List Effect) × Nat :=
  (OpenInternal env st fileName true, 0)

/-- Embeds `ResourceCacheDevice::Read` on the slot `&m_handles[handle]`: `EnsureFetched`
first (its Boolean result is ignored, as in the source); `NotFetched`/`Fetching`
reads 0 bytes, `Error` returns `(size_t)-1`, and otherwise the read is proxied to
the parent device (the source dereferences `parentDevice` without a null check,
so the `none` arm is unreachable in a run that does not crash). -/
def Read (env : Env) (blocking : Bool) (cachePath : List Char) (hd : HandleData)
    (size : Nat) : HandleData × Nat × List Effect :=
  let r := EnsureFetched env blocking cachePath hd
  let hd1 := r.1
  if hd1.status = Status.NotFetched ∨ hd1.status = Status.Fetching then
    (hd1, 0, r.2.2)
  else if hd1.status = Status.Error then
    (hd1, SIZE_MAX, r.2.2)
  else
    match hd1.parentDevice with
    | some d =>
        (hd1, env.devRead d hd1.parentHandle size,
          r.2.2 ++ [Effect.parentRead d hd1.parentHandle size])
    | none => (hd1, 0, r.2.2)

/-- Embeds `ResourceCacheDevice::ReadBulk` on the slot `&m_handles[handle]`:
`EnsureFetched` first; the reserved sizes `0xFFFFFFFE` (raise priority) and
`0xFFFFFFFD` (lower priority) call `SetRequestWeight` on the in-flight request if
one is present and return the probe value `2048` when `Fetched`, `0` otherwise;
ordinary sizes follow the `Read` outcomes, with the proxied read at
`ptr + bulkPtr` (`uint64_t` addition). -/
def ReadBulk (env : Env) (blocking : Bool) (cachePath : List Char)
    (hd : HandleData) (ptr : Nat) (size : Nat) : HandleData × Nat × List Effect :=
  let r := EnsureFetched env blocking cachePath hd
  let hd1 := r.1
  if size = 0xFFFFFFFE ∨ size = 0xFFFFFFFD then
    let effs := match hd1.getRequest with
      | some req =>
          let newWeight : Int := if size = 0xFFFFFFFE then -1 else 1
          r.2.2 ++ [Effect.setRequestWeight req.url newWeight]
      | none => r.2.2
    (hd1, if hd1.status = Status.Fetched then 2048 else 0, effs)
  else if hd1.status = Status.NotFetched ∨ hd1.status = Status.Fetching then
    (hd1, 0, r.2.2)
  else if hd1.status = Status.Error then
    (hd1, SIZE_MAX, r.2.2)
  else
    match hd1.parentDevice with
    | some d =>
        let off := (ptr + hd1.bulkPtr) % UINT64_MOD
        (hd1, env.devReadBulk d hd1.parentHandle off size,
          r.2.2 ++ [Effect.parentReadBulk d hd1.parentHandle off size])
    | none => (hd1, 0, r.2.2)

/-- Embeds `ResourceCacheDevice::Seek` on the slot `&m_handles[handle]`: `(size_t)-1`
unless `Fetched`, else proxied to the parent device. -/
def Seek (env : Env) (hd : HandleData) (offset : Int) (seekType : Nat) :
    Nat × List Effect :=
  if hd.status ≠ Status.Fetched then (SIZE_MAX, [])
  else
    match hd.parentDevice with
    | some d =>
        (env.devSeek d hd.parentHandle offset seekType,
          [Effect.parentSeek d hd.parentHandle offset seekType])
    | none => (0, [])

/-- Embeds `ResourceCacheDevice::Close` on the slot `&m_handles[handle]`: a `Fetched`
slot closes the parent handle and keeps that result, any other status returns
`true`; the status is always reset to `Empty` (no other field is cleared). -/
def Close (env : Env) (hd : HandleData) : HandleData × Bool × List Effect :=
  let closed : Bool × List Effect :=
    if hd.status = Status.Fetched then
      match hd.parentDevice with
      | some d => (env.devClose d hd.parentHandle, [Effect.parentClose d hd.parentHandle])
      | none => (true, [])
    else (true, [])
  ({ hd with status := Status.Empty }, closed.1, closed.2)

/-- Embeds `ResourceCacheDevice::CloseBulk`: as `Close`, but through the parent device's
`CloseBulk`. -/
def CloseBulk (env : Env) (hd : HandleData) : HandleData × Bool × List Effect :=
  let closed : Bool × List Effect :=
    if hd.status = Status.Fetched then
      match hd.parentDevice with
      | some d => (env.devCloseBulk d hd.parentHandle, [Effect.parentCloseBulk d hd.parentHandle])
      | none => (true, [])
    else (true, [])
  ({ hd with status := Status.Empty }, closed.1, closed.2)

/-- Embeds `ResourceCacheDevice::GetLength(THandle)` on the slot `&m_handles[handle]`: a
`Fetched` slot proxies to the parent device, anything else falls back to the
manifest entry's `size`. -/
def GetLength (env : Env) (hd : HandleData) : Nat × List Effect :=
  if hd.status = Status.Fetched then
    match hd.parentDevice with
    | some d => (env.devGetLength d hd.parentHandle, [Effect.parentGetLength d hd.parentHandle])
    | none => (0, [])
  else (hd.entry.size, [])

/-- The `VFS_GET_RAGE_PAGE_FLAGS` opcode. -/
def VFS_GET_RAGE_PAGE_FLAGS : Nat := 0x20001

/-- The in/out record for the page-flags query (`GetRagePageFlagsExtension` with
its nested `ResourceFlags`). -/
structure GetRagePageFlagsExtension where
  fileName : List Char
  version : Int := 0
  flag1 : Nat := 0
  flag2 : Nat := 0
  deriving DecidableEq

/-- Embeds `ResourceCacheDevice::ExtensionCtl`: only the page-flags opcode is supported,
and only for a path that resolves to an entry; the output is parsed from the
entry's extension metadata (`atoi` for the version, `strtoul` base 10 for the two
flags, truncated to `uint32_t`). No collaborator other than the manifest lookup is
touched: no fetch, no cache, no parent device. -/
def ExtensionCtl (env : Env) (st : DeviceState) (controlIdx : Nat)
    (data : GetRagePageFlagsExtension) : Bool × GetRagePageFlagsExtension :=
  if controlIdx = VFS_GET_RAGE_PAGE_FLAGS then
    match GetEntryForFileName env st data.fileName with
    | some entry =>
        (true, { data with
          version := atoi (mapGet entry.extData "rscVersion".toList),
          flag1 := strtoul10 (mapGet entry.extData "rscPagesVirtual".toList) % UINT32_MOD,
          flag2 := strtoul10 (mapGet entry.extData "rscPagesPhysical".toList) % UINT32_MOD })
    | none => (false, data)
  else (false, data)

/-! ## Helper lemmas -/

/-- A slot already `Fetched` short-circuits `EnsureFetched`: no state change, no
collaborator call. -/
theorem ensureFetched_of_fetched (env : Env) (blocking : Bool) (cachePath : List Char)
    (hd : HandleData) (h : hd.status = Status.Fetched) :
    EnsureFetched env blocking cachePath hd = (hd, true, []) := by
  simp [EnsureFetched, h]

/-- The completion callback never reads from a parent device, never adjusts a
request weight, and never dispatches a new fetch. -/
theorem completionCallback_effects (env : Env) (hd : HandleData) (ofn : List Char)
    (result : Bool) (outSize0 : Nat) :
    List.countP isRealRead (completionCallback env hd ofn result outSize0).2 = 0 ∧
    List.countP isSetWeight (completionCallback env hd ofn result outSize0).2 = 0 ∧
    List.countP isHttpFetch (completionCallback env hd ofn result outSize0).2 = 0 := by
  cases result with
  | false => simp [completionCallback]
  | true =>
    cases hdev : env.getDevice ofn with
    | none => simp [completionCallback, hdev]
    | some d =>
      by_cases hsz : env.devGetLengthPath d ofn = 0
      · simp [completionCallback, hdev, hsz]
      · cases hb : hd.bulkHandle <;>
          simp [completionCallback, hdev, hsz, hb, isRealRead, isSetWeight, isHttpFetch]

/-- Lemma: `EnsureFetched` never reads from a parent device and never adjusts a request
weight (its only transport action is dispatching the fetch). -/
theorem ensureFetched_effects (env : Env) (blocking : Bool) (cachePath : List Char)
    (hd : HandleData) :
    List.countP isRealRead (EnsureFetched env blocking cachePath hd).2.2 = 0 ∧
    List.countP isSetWeight (EnsureFetched env blocking cachePath hd).2.2 = 0 := by
  by_cases h1 : hd.status = Status.Fetched
  · simp [EnsureFetched, h1]
  · by_cases h2 : hd.status = Status.Fetching
    · cases blocking with
      | false => simp [EnsureFetched, h1, h2]
      | true =>
        cases hgr : hd.getRequest with
        | none => simp [EnsureFetched, h1, h2, hgr]
        | some req =>
          simp only [EnsureFetched, h1, h2, hgr, if_false, if_true, if_neg, if_pos]
          exact ⟨(completionCallback_effects _ _ _ _ _).1,
            (completionCallback_effects _ _ _ _ _).2.1⟩
    · cases blocking with
      | false => simp [EnsureFetched, h1, h2, isRealRead, isSetWeight]
      | true =>
        simp only [EnsureFetched, h1, h2, if_false, if_true, if_neg, if_pos,
          List.countP_cons, isRealRead, isSetWeight]
        constructor
        · simpa using (completionCallback_effects _ _ _ _ _).1
        · simpa using (completionCallback_effects _ _ _ _ _).2.1

/-! ## Claim C1 -/

/-- Environment for the C1 failing input: the downloaded file exists (device 5,
length 100), but opening it afterwards fails with `InvalidHandle`. -/
def envC1 : Env :=
  { getDevice := fun p => if p = "o".toList then some 5 else none,
    devGetLengthPath := fun _ _ => 100,
    devOpen := fun _ _ => InvalidHandle }

/-- The slot of the C1 failing input: a regular (non-bulk) handle whose fetch is
in flight when the completion callback fires. -/
def hdC1 : HandleData :=
  { status := Status.Fetching,
    getRequest := some { url := "u".toList, outFileName := "o".toList } }

/-- C1: refuted on the code. When the download completion callback runs with a
successful transfer (`result = true`, downloaded file non-empty) but the local
device's `Open` of the downloaded file fails, the callback still sets the slot's
status to `Fetched`, leaving `parentHandle = InvalidHandle` — so a `Fetched` slot
after the completion callback need not hold an open parent handle, contradicting
the claimed invariant (the cache-hit path of `OpenInternal` guards exactly this
case, so the spec states the evident intent and the callback's unconditional
`status = StatusFetched` is the slip). -/
theorem c1_callback_fetched_with_invalid_parent_handle :
    (completionCallback envC1 hdC1 "o".toList true 0).1.status = Status.Fetched ∧
    (completionCallback envC1 hdC1 "o".toList true 0).1.parentDevice = some 5 ∧
    (completionCallback envC1 hdC1 "o".toList true 0).1.parentHandle = InvalidHandle := by
  refine ⟨?_, ?_, ?_⟩ <;> rfl

/-! ## Claim C2 -/

/-- C2: for every handle and any of the two reserved sentinel sizes, `ReadBulk`
performs no real read against the parent device, returns the probe value `2048`
exactly when the slot (after `EnsureFetched`) is `Fetched` and `0` otherwise, and
calls `SetRequestWeight` exactly once when an in-flight request handle is present
and not at all otherwise. -/
theorem c2_sentinel_protocol (env : Env) (blocking : Bool) (cachePath : List Char)
    (hd : HandleData) (ptr size : Nat)
    (hs : size = 0xFFFFFFFE ∨ size = 0xFFFFFFFD) :
    (ReadBulk env blocking cachePath hd ptr size).2.1
      = (if (ReadBulk env blocking cachePath hd ptr size).1.status = Status.Fetched
          then 2048 else 0) ∧
    List.countP isRealRead (ReadBulk env blocking cachePath hd ptr size).2.2 = 0 ∧
    List.countP isSetWeight (ReadBulk env blocking cachePath hd ptr size).2.2
      = (if (ReadBulk env blocking cachePath hd ptr size).1.getRequest.isSome
          then 1 else 0) := by
  have hef := ensureFetched_effects env blocking cachePath hd
  cases hgr : (EnsureFetched env blocking cachePath hd).1.getRequest with
  | none =>
    have h : ReadBulk env blocking cachePath hd ptr size
        = ((EnsureFetched env blocking cachePath hd).1,
            (if (EnsureFetched env blocking cachePath hd).1.status = Status.Fetched
              then 2048 else 0),
            (EnsureFetched env blocking cachePath hd).2.2) := by
      simp only [ReadBulk]
      rw [if_pos hs]
      simp only [hgr]
    rw [h]
    exact ⟨rfl, hef.1, by simp [hef.2, hgr]⟩
  | some req =>
    have h : ReadBulk env blocking cachePath hd ptr size
        = ((EnsureFetched env blocking cachePath hd).1,
            (if (EnsureFetched env blocking cachePath hd).1.status = Status.Fetched
              then 2048 else 0),
            (EnsureFetched env blocking cachePath hd).2.2
              ++ [Effect.setRequestWeight req.url
                    (if size = 0xFFFFFFFE then (-1 : Int) else 1)]) := by
      simp only [ReadBulk]
      rw [if_pos hs]
      simp only [hgr]
    rw [h]
    refine ⟨rfl, ?_, ?_⟩
    · rw [List.countP_append, hef.1]
      simp [isRealRead]
    · rw [List.countP_append, hef.2]
      simp [isSetWeight, hgr]

/-- The environment in which every collaborator gives its default response. -/
def env0 : Env := {}

/-- Witness for C2 at a concrete input: the lower-priority sentinel against a
fresh slot of a non-blocking device. -/
theorem c2_sentinel_protocol_witness :
    (ReadBulk env0 false [] HandleData.init 0 0xFFFFFFFD).2.1
      = (if (ReadBulk env0 false [] HandleData.init 0 0xFFFFFFFD).1.status = Status.Fetched
          then 2048 else 0) ∧
    List.countP isRealRead (ReadBulk env0 false [] HandleData.init 0 0xFFFFFFFD).2.2 = 0 ∧
    List.countP isSetWeight (ReadBulk env0 false [] HandleData.init 0 0xFFFFFFFD).2.2
      = (if (ReadBulk env0 false [] HandleData.init 0 0xFFFFFFFD).1.getRequest.isSome
          then 1 else 0) :=
  c2_sentinel_protocol env0 false [] HandleData.init 0 0xFFFFFFFD (Or.inr rfl)

/-! ## Claim C3 -/

/-- C3: for every handle and non-sentinel read request, after `EnsureFetched` a
`NotFetched`/`Fetching` slot reads 0 bytes, an `Error` slot returns the
`(size_t)-1` error sentinel, and a `Fetched` slot returns the read proxied to the
parent device's handle — both for `Read` and (with the bulk-base offset) for
`ReadBulk`. -/
theorem c3_nonsentinel_read_outcomes (env : Env) (blocking : Bool)
    (cachePath : List Char) (hd : HandleData) (ptr size : Nat)
    (hs1 : size ≠ 0xFFFFFFFE) (hs2 : size ≠ 0xFFFFFFFD) :
    (((Read env blocking cachePath hd size).1.status = Status.NotFetched ∨
        (Read env blocking cachePath hd size).1.status = Status.Fetching) →
      (Read env blocking cachePath hd size).2.1 = 0) ∧
    ((Read env blocking cachePath hd size).1.status = Status.Error →
      (Read env blocking cachePath hd size).2.1 = SIZE_MAX) ∧
    (∀ d, (Read env blocking cachePath hd size).1.status = Status.Fetched →
      (Read env blocking cachePath hd size).1.parentDevice = some d →
      (Read env blocking cachePath hd size).2.1
        = env.devRead d (Read env blocking cachePath hd size).1.parentHandle size) ∧
    (((ReadBulk env blocking cachePath hd ptr size).1.status = Status.NotFetched ∨
        (ReadBulk env blocking cachePath hd ptr size).1.status = Status.Fetching) →
      (ReadBulk env blocking cachePath hd ptr size).2.1 = 0) ∧
    ((ReadBulk env blocking cachePath hd ptr size).1.status = Status.Error →
      (ReadBulk env blocking cachePath hd ptr size).2.1 = SIZE_MAX) ∧
    (∀ d, (ReadBulk env blocking cachePath hd ptr size).1.status = Status.Fetched →
      (ReadBulk env blocking cachePath hd ptr size).1.parentDevice = some d →
      (ReadBulk env blocking cachePath hd ptr size).2.1
        = env.devReadBulk d (ReadBulk env blocking cachePath hd ptr size).1.parentHandle
            ((ptr + (ReadBulk env blocking cachePath hd ptr size).1.bulkPtr) % UINT64_MOD)
            size) := by
  have hbc : ¬(size = 0xFFFFFFFE ∨ size = 0xFFFFFFFD) := by
    rintro (h | h)
    · exact hs1 h
    · exact hs2 h
  cases hst : (EnsureFetched env blocking cachePath hd).1.status with
  | NotFetched =>
    have c1 : (EnsureFetched env blocking cachePath hd).1.status = Status.NotFetched ∨
        (EnsureFetched env blocking cachePath hd).1.status = Status.Fetching := Or.inl hst
    have hr : Read env blocking cachePath hd size
        = ((EnsureFetched env blocking cachePath hd).1, 0,
            (EnsureFetched env blocking cachePath hd).2.2) := by
      simp only [Read]; rw [if_pos c1]
    have hrb : ReadBulk env blocking cachePath hd ptr size
        = ((EnsureFetched env blocking cachePath hd).1, 0,
            (EnsureFetched env blocking cachePath hd).2.2) := by
      simp only [ReadBulk]; rw [if_neg hbc, if_pos c1]
    rw [hr, hrb]; simp [hst]
  | Fetching =>
    have c1 : (EnsureFetched env blocking cachePath hd).1.status = Status.NotFetched ∨
        (EnsureFetched env blocking cachePath hd).1.status = Status.Fetching := Or.inr hst
    have hr : Read env blocking cachePath hd size
        = ((EnsureFetched env blocking cachePath hd).1, 0,
            (EnsureFetched env blocking cachePath hd).2.2) := by
      simp only [Read]; rw [if_pos c1]
    have hrb : ReadBulk env blocking cachePath hd ptr size
        = ((EnsureFetched env blocking cachePath hd).1, 0,
            (EnsureFetched env blocking cachePath hd).2.2) := by
      simp only [ReadBulk]; rw [if_neg hbc, if_pos c1]
    rw [hr, hrb]; simp [hst]
  | Error =>
    have c1 : ¬((EnsureFetched env blocking cachePath hd).1.status = Status.NotFetched ∨
        (EnsureFetched env blocking cachePath hd).1.status = Status.Fetching) := by
      simp [hst]
    have hr : Read env blocking cachePath hd size
        = ((EnsureFetched env blocking cachePath hd).1, SIZE_MAX,
            (EnsureFetched env blocking cachePath hd).2.2) := by
      simp only [Read]; rw [if_neg c1, if_pos hst]
    have hrb : ReadBulk env blocking cachePath hd ptr size
        = ((EnsureFetched env blocking cachePath hd).1, SIZE_MAX,
            (EnsureFetched env blocking cachePath hd).2.2) := by
      simp only [ReadBulk]; rw [if_neg hbc, if_neg c1, if_pos hst]
    rw [hr, hrb]; simp [hst]
  | Fetched =>
    have c1 : ¬((EnsureFetched env blocking cachePath hd).1.status = Status.NotFetched ∨
        (EnsureFetched env blocking cachePath hd).1.status = Status.Fetching) := by
      simp [hst]
    have c2 : ¬(EnsureFetched env blocking cachePath hd).1.status = Status.Error := by
      simp [hst]
    cases hpd : (EnsureFetched env blocking cachePath hd).1.parentDevice with
    | none =>
      have hr : Read env blocking cachePath hd size
          = ((EnsureFetched env blocking cachePath hd).1, 0,
              (EnsureFetched env blocking cachePath hd).2.2) := by
        simp only [Read]; rw [if_neg c1, if_neg c2]; simp only [hpd]
      have hrb : ReadBulk env blocking cachePath hd ptr size
          = ((EnsureFetched env blocking cachePath hd).1, 0,
              (EnsureFetched env blocking cachePath hd).2.2) := by
        simp only [ReadBulk]; rw [if_neg hbc, if_neg c1, if_neg c2]; simp only [hpd]
      rw [hr, hrb]; simp [hst, hpd]
    | some d =>
      have hr : Read env blocking cachePath hd size
          = ((EnsureFetched env blocking cachePath hd).1,
              env.devRead d (EnsureFetched env blocking cachePath hd).1.parentHandle size,
              (EnsureFetched env blocking cachePath hd).2.2
                ++ [Effect.parentRead d
                      (EnsureFetched env blocking cachePath hd).1.parentHandle size]) := by
        simp only [Read]; rw [if_neg c1, if_neg c2]; simp only [hpd]
      have hrb : ReadBulk env blocking cachePath hd ptr size
          = ((EnsureFetched env blocking cachePath hd).1,
              env.devReadBulk d (EnsureFetched env blocking cachePath hd).1.parentHandle
                ((ptr + (EnsureFetched env blocking cachePath hd).1.bulkPtr) % UINT64_MOD)
                size,
              (EnsureFetched env blocking cachePath hd).2.2
                ++ [Effect.parentReadBulk d
                      (EnsureFetched env blocking cachePath hd).1.parentHandle
                      ((ptr + (EnsureFetched env blocking cachePath hd).1.bulkPtr)
                        % UINT64_MOD) size]) := by
        simp only [ReadBulk]; rw [if_neg hbc, if_neg c1, if_neg c2]; simp only [hpd]
      rw [hr, hrb]; simp [hst, hpd]
  | Empty =>
    have c1 : ¬((EnsureFetched env blocking cachePath hd).1.status = Status.NotFetched ∨
        (EnsureFetched env blocking cachePath hd).1.status = Status.Fetching) := by
      simp [hst]
    have c2 : ¬(EnsureFetched env blocking cachePath hd).1.status = Status.Error := by
      simp [hst]
    cases hpd : (EnsureFetched env blocking cachePath hd).1.parentDevice with
    | none =>
      have hr : Read env blocking cachePath hd size
          = ((EnsureFetched env blocking cachePath hd).1, 0,
              (EnsureFetched env blocking cachePath hd).2.2) := by
        simp only [Read]; rw [if_neg c1, if_neg c2]; simp only [hpd]
      have hrb : ReadBulk env blocking cachePath hd ptr size
          = ((EnsureFetched env blocking cachePath hd).1, 0,
              (EnsureFetched env blocking cachePath hd).2.2) := by
        simp only [ReadBulk]; rw [if_neg hbc, if_neg c1, if_neg c2]; simp only [hpd]
      rw [hr, hrb]; simp [hst]
    | some d =>
      have hr : Read env blocking cachePath hd size
          = ((EnsureFetched env blocking cachePath hd).1,
              env.devRead d (EnsureFetched env blocking cachePath hd).1.parentHandle size,
              (EnsureFetched env blocking cachePath hd).2.2
                ++ [Effect.parentRead d
                      (EnsureFetched env blocking cachePath hd).1.parentHandle size]) := by
        simp only [Read]; rw [if_neg c1, if_neg c2]; simp only [hpd]
      have hrb : ReadBulk env blocking cachePath hd ptr size
          = ((EnsureFetched env blocking cachePath hd).1,
              env.devReadBulk d (EnsureFetched env blocking cachePath hd).1.parentHandle
                ((ptr + (EnsureFetched env blocking cachePath hd).1.bulkPtr) % UINT64_MOD)
                size,
              (EnsureFetched env blocking cachePath hd).2.2
                ++ [Effect.parentReadBulk d
                      (EnsureFetched env blocking cachePath hd).1.parentHandle
                      ((ptr + (EnsureFetched env blocking cachePath hd).1.bulkPtr)
                        % UINT64_MOD) size]) := by
        simp only [ReadBulk]; rw [if_neg hbc, if_neg c1, if_neg c2]; simp only [hpd]
      rw [hr, hrb]; simp [hst]

/-- A `Fetched` slot short-circuits `Read`: the read is proxied directly to the
parent device. -/
theorem read_of_fetched (env : Env) (blocking : Bool) (cachePath : List Char)
    (hd : HandleData) (size : Nat) (d : Nat)
    (h : hd.status = Status.Fetched) (hpd : hd.parentDevice = some d) :
    Read env blocking cachePath hd size
      = (hd, env.devRead d hd.parentHandle size,
          [Effect.parentRead d hd.parentHandle size]) := by
  have c1 : ¬(hd.status = Status.NotFetched ∨ hd.status = Status.Fetching) := by simp [h]
  have c2 : ¬hd.status = Status.Error := by simp [h]
  simp only [Read, ensureFetched_of_fetched env blocking cachePath hd h]
  rw [if_neg c1, if_neg c2]
  simp only [hpd, List.nil_append]

/-- A `Fetched` slot short-circuits a non-sentinel `ReadBulk`: the read is
proxied to the parent device at `ptr + bulkPtr`. -/
theorem readBulk_of_fetched (env : Env) (blocking : Bool) (cachePath : List Char)
    (hd : HandleData) (ptr size : Nat) (d : Nat)
    (h : hd.status = Status.Fetched) (hpd : hd.parentDevice = some d)
    (hs1 : size ≠ 0xFFFFFFFE) (hs2 : size ≠ 0xFFFFFFFD) :
    ReadBulk env blocking cachePath hd ptr size
      = (hd, env.devReadBulk d hd.parentHandle ((ptr + hd.bulkPtr) % UINT64_MOD) size,
          [Effect.parentReadBulk d hd.parentHandle ((ptr + hd.bulkPtr) % UINT64_MOD) size]) := by
  have hbc : ¬(size = 0xFFFFFFFE ∨ size = 0xFFFFFFFD) := by
    rintro (hx | hx)
    · exact hs1 hx
    · exact hs2 hx
  have c1 : ¬(hd.status = Status.NotFetched ∨ hd.status = Status.Fetching) := by simp [h]
  have c2 : ¬hd.status = Status.Error := by simp [h]
  simp only [ReadBulk, ensureFetched_of_fetched env blocking cachePath hd h]
  rw [if_neg hbc, if_neg c1, if_neg c2]
  simp only [hpd, List.nil_append]

/-- A slot in `NotFetched`, as `OpenInternal` leaves it on a cache miss. -/
def hdC3NotFetched : HandleData := { status := Status.NotFetched }

/-- A `Fetched` slot whose backing file lives on parent device 3. -/
def hdC3Fetched : HandleData := { status := Status.Fetched, parentDevice := some 3 }

/-- Witness for C3: all three outcomes at concrete inputs — a non-blocking read
on a fresh slot (fetch just dispatched, 0 bytes), a blocking read whose fetch
fails (error sentinel), and a read on a fetched slot (proxied to device 3). -/
theorem c3_nonsentinel_read_outcomes_witness :
    (Read env0 false [] HandleData.init 5).2.1 = 0 ∧
    (Read env0 true [] hdC3NotFetched 5).2.1 = SIZE_MAX ∧
    (Read env0 false [] hdC3Fetched 5).2.1
      = env0.devRead 3 (Read env0 false [] hdC3Fetched 5).1.parentHandle 5 :=
  ⟨(c3_nonsentinel_read_outcomes env0 false [] HandleData.init 0 5
      (by decide) (by decide)).1 (by decide),
   (c3_nonsentinel_read_outcomes env0 true [] hdC3NotFetched 0 5
      (by decide) (by decide)).2.1 (by decide),
   (c3_nonsentinel_read_outcomes env0 false [] hdC3Fetched 0 5
      (by decide) (by decide)).2.2.1 3 (by decide) (by decide)⟩

/-! ## Claim C4 -/

/-- The allocation scan only yields indices inside the table. -/
theorem firstEmptyIdx_lt_length :
    ∀ (l : List HandleData) (i : Nat), firstEmptyIdx l = some i → i < l.length := by
  intro l
  induction l with
  | nil => intro i h; simp [firstEmptyIdx] at h
  | cons x xs ih =>
    intro i h
    by_cases hx : x.status = Status.Empty
    · simp [firstEmptyIdx, hx] at h
      simp [← h]
    · cases hfx : firstEmptyIdx xs with
      | none => rw [firstEmptyIdx, if_neg hx, hfx] at h; simp at h
      | some j =>
          rw [firstEmptyIdx, if_neg hx, hfx] at h
          simp only [Option.map_some', Option.some.injEq] at h
          have hj := ih j hfx
          simp only [List.length_cons]
          omega

/-- Reading back the slot just written at a valid index. -/
theorem getD_set_self {α : Type} (l : List α) (i : Nat) (a d : α) (h : i < l.length) :
    (l.set i a).getD i d = a := by
  induction l generalizing i with
  | nil => simp at h
  | cons x xs ih =>
    cases i with
    | zero => rfl
    | succ n => simpa using ih n (by simpa using h)

/-- The slot as `OpenInternal` leaves it after a successful non-bulk cache-hit
open: `Fetched`, backed by parent device `d` with handle `ph` and the cache
entry's metadata. -/
def cacheHitSlot (old : HandleData) (entry : Entry) (d : Nat) (ph : Nat)
    (md : List (List Char × List Char)) : HandleData :=
  { status := Status.Fetched, entry := entry, bulkHandle := false,
    parentDevice := some d, parentHandle := ph, bulkPtr := old.bulkPtr,
    getRequest := old.getRequest, metaData := md,
    downloadProgress := old.downloadProgress, downloadSize := old.downloadSize }

/-- C4: when the manifest resolves the path, a slot is free, the cache bridge
holds the entry's content hash and the local device opens the cached file, `Open`
reaches `Fetched` synchronously with no HTTP dispatch, and `EnsureFetched` (hence
the first `Read`) returns `true` immediately with no further transport action. -/
theorem c4_cache_hit_no_fetch (env : Env) (st : DeviceState) (fileName : List Char)
    (entry : Entry) (idx : Nat) (st1 : DeviceState) (ce : CacheEntry) (d : Nat)
    (blocking : Bool) (cachePath : List Char) (size : Nat)
    (hres : GetEntryForFileName env st fileName = some entry)
    (halloc : AllocateHandle st = some (idx, st1))
    (hcache : env.cacheLookup entry.referenceHash = some ce)
    (hdev : env.getDevice ce.localPath = some d)
    (hopen : env.devOpen d ce.localPath ≠ InvalidHandle) :
    ∃ st2 effs,
      Open env st fileName true = some (idx, st2, effs) ∧
      List.countP isHttpFetch effs = 0 ∧
      (st2.handles.getD idx HandleData.init).status = Status.Fetched ∧
      EnsureFetched env blocking cachePath (st2.handles.getD idx HandleData.init)
        = (st2.handles.getD idx HandleData.init, true, []) ∧
      List.countP isHttpFetch
        (Read env blocking cachePath (st2.handles.getD idx HandleData.init) size).2.2
          = 0 := by
  have hfe : firstEmptyIdx st.handles = some idx := by
    unfold AllocateHandle at halloc
    cases h : firstEmptyIdx st.handles with
    | none => rw [h] at halloc; exact absurd halloc (by simp)
    | some i =>
        rw [h] at halloc
        simp only [Option.some.injEq, Prod.mk.injEq] at halloc
        rw [← halloc.1]
  have hst1len : st1.handles.length = st.handles.length := by
    unfold AllocateHandle at halloc
    rw [hfe] at halloc
    simp only [Option.some.injEq, Prod.mk.injEq] at halloc
    rw [← halloc.2]
    simp
  have hlen : idx < st1.handles.length :=
    hst1len ▸ firstEmptyIdx_lt_length st.handles idx hfe
  have hmain : Open env st fileName true
      = some (idx,
          { st1 with handles := st1.handles.set idx (cacheHitSlot (st1.handles.getD idx HandleData.init) entry d (env.devOpen d ce.localPath) ce.metaData) },
          [Effect.parentOpen d ce.localPath]) := by
    show OpenInternal env st fileName false = _
    simp only [OpenInternal, hres, halloc, hcache, hdev]
    rw [if_pos hopen]
    rfl
  refine ⟨_, _, hmain, ?_, ?_, ?_, ?_⟩
  · simp [isHttpFetch]
  · rw [getD_set_self _ _ _ _ hlen]
    rfl
  · rw [getD_set_self _ _ _ _ hlen]
    exact ensureFetched_of_fetched env blocking cachePath _ rfl
  · rw [getD_set_self _ _ _ _ hlen,
      read_of_fetched env blocking cachePath _ size d rfl rfl]
    simp [isHttpFetch]

/-- The manifest entry of the C4 witness. -/
def entryC4 : Entry :=
  { basename := "a.ytd".toList, resourceName := "res".toList,
    referenceHash := "HASH".toList, remoteUrl := "http".toList,
    size := 10, extData := [] }

/-- The cache bridge hit of the C4 witness. -/
def ceC4 : CacheEntry := { localPath := "local".toList, metaData := [] }

/-- Environment for the C4 witness: resource `res` knows `a.ytd`, whose hash is
cached at `local`, served by device 2, which opens it as handle 7. -/
def envC4 : Env :=
  { getResource := fun r => if r = "res".toList then some 1 else none,
    getEntry := fun _ i => if i = "a.ytd".toList then some entryC4 else none,
    cacheLookup := fun h => if h = "HASH".toList then some ceC4 else none,
    getDevice := fun p => if p = "local".toList then some 2 else none,
    devOpen := fun _ _ => 7 }

/-- A one-slot device with an empty path prefix. -/
def stC4 : DeviceState :=
  { handles := [HandleData.init], blocking := false, cachePath := [], pathPfx := [] }

/-- The C4 witness device state after the allocation scan reserved slot 0. -/
def stC4a : DeviceState :=
  { stC4 with handles := [{ HandleData.init with status := Status.Error }] }

/-- Witness for C4: opening `res/a.ytd` on the one-slot device with the hash
already cached. -/
theorem c4_cache_hit_no_fetch_witness :
    ∃ st2 effs,
      Open envC4 stC4 ("res/a.ytd".toList) true = some (0, st2, effs) ∧
      List.countP isHttpFetch effs = 0 ∧
      (st2.handles.getD 0 HandleData.init).status = Status.Fetched ∧
      EnsureFetched envC4 false [] (st2.handles.getD 0 HandleData.init)
        = (st2.handles.getD 0 HandleData.init, true, []) ∧
      List.countP isHttpFetch
        (Read envC4 false [] (st2.handles.getD 0 HandleData.init) 5).2.2 = 0 :=
  c4_cache_hit_no_fetch envC4 stC4 ("res/a.ytd".toList) entryC4 0 stC4a ceC4 2
    false [] 5 (by decide) (by decide) (by decide) (by decide) (by decide)

/-! ## Claim C5 -/

/-- C5: `Close` and `CloseBulk` always reset the slot to `Empty`, whatever the
prior status; for a prior `Fetched` slot they close the parent handle and return
that close's result, otherwise they return `true`. -/
theorem c5_close_resets_to_empty (env : Env) (hd : HandleData) :
    (Close env hd).1.status = Status.Empty ∧
    (CloseBulk env hd).1.status = Status.Empty ∧
    (hd.status ≠ Status.Fetched →
      (Close env hd).2.1 = true ∧ (CloseBulk env hd).2.1 = true) ∧
    (∀ d, hd.status = Status.Fetched → hd.parentDevice = some d →
      (Close env hd).2.1 = env.devClose d hd.parentHandle ∧
      (CloseBulk env hd).2.1 = env.devCloseBulk d hd.parentHandle) := by
  refine ⟨rfl, rfl, ?_, ?_⟩
  · intro h
    constructor <;> simp [Close, CloseBulk, h]
  · intro d h hpd
    constructor <;> simp [Close, CloseBulk, h, hpd]

/-- A `Fetched` slot backed by parent device 4 for the C5 witness. -/
def hdC5 : HandleData := { status := Status.Fetched, parentDevice := some 4 }

/-- Witness for C5: closing a fresh (non-`Fetched`) slot returns `true`; closing
a `Fetched` slot returns the parent device's close result. -/
theorem c5_close_resets_to_empty_witness :
    ((Close env0 HandleData.init).2.1 = true ∧
      (CloseBulk env0 HandleData.init).2.1 = true) ∧
    ((Close env0 hdC5).2.1 = env0.devClose 4 hdC5.parentHandle ∧
      (CloseBulk env0 hdC5).2.1 = env0.devCloseBulk 4 hdC5.parentHandle) :=
  ⟨(c5_close_resets_to_empty env0 HandleData.init).2.2.1 (by decide),
   (c5_close_resets_to_empty env0 hdC5).2.2.2 4 (by decide) (by decide)⟩

/-! ## Claim C6 -/

/-- C6: for a fetched bulk handle with bulk base pointer `B = bulkPtr`, a
non-sentinel `ReadBulk` at offset `ptr` proxies to the parent device's `ReadBulk`
at stream offset `B + ptr`, and that proxied read is its only collaborator
call. -/
theorem c6_bulk_offset_correctness (env : Env) (blocking : Bool)
    (cachePath : List Char) (hd : HandleData) (ptr size d : Nat)
    (hf : hd.status = Status.Fetched) (hpd : hd.parentDevice = some d)
    (hs1 : size ≠ 0xFFFFFFFE) (hs2 : size ≠ 0xFFFFFFFD)
    (hrange : ptr + hd.bulkPtr < UINT64_MOD) :
    (ReadBulk env blocking cachePath hd ptr size).2.1
      = env.devReadBulk d hd.parentHandle (ptr + hd.bulkPtr) size ∧
    (ReadBulk env blocking cachePath hd ptr size).2.2
      = [Effect.parentReadBulk d hd.parentHandle (ptr + hd.bulkPtr) size] := by
  rw [readBulk_of_fetched env blocking cachePath hd ptr size d hf hpd hs1 hs2,
    Nat.mod_eq_of_lt hrange]
  exact ⟨rfl, rfl⟩

/-- A fetched bulk slot at bulk base offset 100, backed by parent device 2. -/
def hdC6 : HandleData :=
  { status := Status.Fetched, bulkHandle := true, parentDevice := some 2,
    parentHandle := 9, bulkPtr := 100 }

/-- Witness for C6: reading 10 bytes at logical offset 5 of a bulk file based at
stream offset 100 reads the backing stream at offset 105. -/
theorem c6_bulk_offset_correctness_witness :
    (ReadBulk env0 false [] hdC6 5 10).2.1
      = env0.devReadBulk 2 hdC6.parentHandle (5 + hdC6.bulkPtr) 10 ∧
    (ReadBulk env0 false [] hdC6 5 10).2.2
      = [Effect.parentReadBulk 2 hdC6.parentHandle (5 + hdC6.bulkPtr) 10] :=
  c6_bulk_offset_correctness env0 false [] hdC6 5 10 2 (by decide) (by decide)
    (by decide) (by decide) (by decide)

/-! ## Claim C7 -/

/-- C7: `Seek` on a non-`Fetched` slot fails with `(size_t)-1` and `GetLength`
falls back to the manifest entry's `size`, both without touching the parent
device (or the network); on a `Fetched` slot both proxy to the parent device. -/
theorem c7_seek_getlength_require_fetched (env : Env) (hd : HandleData)
    (offset : Int) (seekType : Nat) :
    (hd.status ≠ Status.Fetched →
      Seek env hd offset seekType = (SIZE_MAX, []) ∧
      GetLength env hd = (hd.entry.size, [])) ∧
    (∀ d, hd.status = Status.Fetched → hd.parentDevice = some d →
      Seek env hd offset seekType
        = (env.devSeek d hd.parentHandle offset seekType,
            [Effect.parentSeek d hd.parentHandle offset seekType]) ∧
      GetLength env hd
        = (env.devGetLength d hd.parentHandle,
            [Effect.parentGetLength d hd.parentHandle])) := by
  constructor
  · intro h
    constructor <;> simp [Seek, GetLength, h]
  · intro d h hpd
    constructor <;> simp [Seek, GetLength, h, hpd]

/-- A slot still fetching, with a manifest entry of size 10, for the C7
witness. -/
def hdC7 : HandleData :=
  { status := Status.Fetching, entry := entryC4 }

/-- A `Fetched` slot backed by parent device 6 for the C7 witness. -/
def hdC7f : HandleData := { status := Status.Fetched, parentDevice := some 6 }

/-- Witness for C7: seeking a still-fetching slot fails with the error sentinel
while its length query answers the manifest size; both proxy once fetched. -/
theorem c7_seek_getlength_require_fetched_witness :
    (Seek env0 hdC7 3 0 = (SIZE_MAX, []) ∧
      GetLength env0 hdC7 = (hdC7.entry.size, [])) ∧
    (Seek env0 hdC7f 3 0
        = (env0.devSeek 6 hdC7f.parentHandle 3 0,
            [Effect.parentSeek 6 hdC7f.parentHandle 3 0]) ∧
      GetLength env0 hdC7f
        = (env0.devGetLength 6 hdC7f.parentHandle,
            [Effect.parentGetLength 6 hdC7f.parentHandle])) :=
  ⟨(c7_seek_getlength_require_fetched env0 hdC7 3 0).1 (by decide),
   (c7_seek_getlength_require_fetched env0 hdC7f 3 0).2 6 (by decide) (by decide)⟩

/-! ## Claim C8 -/

/-- C8: when the path does not resolve to a manifest entry, `Open` returns
`InvalidHandle` with no side effects — the device state (in particular the whole
handle table) is unchanged and no collaborator is called, since `OpenInternal`
returns before `AllocateHandle`. -/
theorem c8_resolution_failure_no_side_effects (env : Env) (st : DeviceState)
    (fileName : List Char)
    (h : GetEntryForFileName env st fileName = none) :
    Open env st fileName true = some (InvalidHandle, st, []) := by
  show OpenInternal env st fileName false = _
  simp only [OpenInternal, h]

/-- Witness for C8: opening `unknownresource/file.txt` against a manifest that
knows no resource. -/
theorem c8_resolution_failure_no_side_effects_witness :
    Open env0 stC4 ("unknownresource/file.txt".toList) true
      = some (InvalidHandle, stC4, []) :=
  c8_resolution_failure_no_side_effects env0 stC4 ("unknownresource/file.txt".toList)
    (by decide)

/-! ## Claim C9 -/

/-- C9: for a resolved path whose extension metadata holds
`rscVersion = "3"`, `rscPagesVirtual = "16"`, `rscPagesPhysical = "4"`, the
page-flags `ExtensionCtl` opcode returns `true` and fills
`version = 3, flag1 = 16, flag2 = 4`, purely from the manifest (`ExtensionCtl`
calls no collaborator besides the resolver — no fetch, no network); any other
opcode, or an unresolvable path, returns `false` with the record untouched. -/
theorem c9_extension_ctl_page_flags (env : Env) (st : DeviceState)
    (data : GetRagePageFlagsExtension) (entry : Entry)
    (hres : GetEntryForFileName env st data.fileName = some entry)
    (h1 : mapGet entry.extData ("rscVersion".toList) = "3".toList)
    (h2 : mapGet entry.extData ("rscPagesVirtual".toList) = "16".toList)
    (h3 : mapGet entry.extData ("rscPagesPhysical".toList) = "4".toList) :
    ExtensionCtl env st VFS_GET_RAGE_PAGE_FLAGS data
      = (true, { data with version := 3, flag1 := 16, flag2 := 4 }) ∧
    (∀ cIdx d2, cIdx ≠ VFS_GET_RAGE_PAGE_FLAGS →
      ExtensionCtl env st cIdx d2 = (false, d2)) ∧
    (∀ d2, GetEntryForFileName env st d2.fileName = none →
      ExtensionCtl env st VFS_GET_RAGE_PAGE_FLAGS d2 = (false, d2)) := by
  refine ⟨?_, ?_, ?_⟩
  · simp at h1 h2 h3
    simp [ExtensionCtl, hres, h1, h2, h3]
    exact ⟨by decide, by decide, by decide⟩
  · intro cIdx d2 hne
    simp [ExtensionCtl, hne]
  · intro d2 hnone
    simp [ExtensionCtl, hnone]

/-- The manifest entry of the C9 witness, carrying the three page-flag
metadata fields. -/
def entryC9 : Entry :=
  { basename := "b.ydr".toList, resourceName := "res".toList,
    referenceHash := "H2".toList, remoteUrl := "u".toList, size := 1,
    extData := [("rscVersion".toList, "3".toList),
                ("rscPagesVirtual".toList, "16".toList),
                ("rscPagesPhysical".toList, "4".toList)] }

/-- Environment for the C9 witness: resource `res` knows `b.ydr`. -/
def envC9 : Env :=
  { getResource := fun r => if r = "res".toList then some 1 else none,
    getEntry := fun _ i => if i = "b.ydr".toList then some entryC9 else none }

/-- The query record of the C9 witness. -/
def dataC9 : GetRagePageFlagsExtension := { fileName := "res/b.ydr".toList }

/-- Witness for C9: querying page flags for `res/b.ydr`. -/
theorem c9_extension_ctl_page_flags_witness :
    ExtensionCtl envC9 stC4 VFS_GET_RAGE_PAGE_FLAGS dataC9
      = (true, { dataC9 with version := 3, flag1 := 16, flag2 := 4 }) :=
  (c9_extension_ctl_page_flags envC9 stC4 dataC9 entryC9 (by decide) (by decide)
    (by decide) (by decide)).1

/-! ## Claim C10 -/

/-- C10: `OpenBulk` stores `0` through the caller's bulk-pointer out-parameter
before resolving the path, and nothing overwrites it afterwards, so the
out-parameter is `0` for every input — in particular when resolution fails and
`InvalidHandle` is returned. -/
theorem c10_openbulk_out_param_zero (env : Env) (st : DeviceState)
    (fileName : List Char) :
    (OpenBulk env st fileName).2 = 0 ∧
    (GetEntryForFileName env st fileName = none →
      (OpenBulk env st fileName).1 = some (InvalidHandle, st, [])) := by
  refine ⟨rfl, ?_⟩
  intro h
  show OpenInternal env st fileName true = _
  simp only [OpenInternal, h]

/-- Witness for C10: bulk-opening an unresolvable path yields `InvalidHandle`
with the out-parameter equal to `0`. -/
theorem c10_openbulk_out_param_zero_witness :
    (OpenBulk env0 stC4 ("unknownresource/file.txt".toList)).2 = 0 ∧
    (OpenBulk env0 stC4 ("unknownresource/file.txt".toList)).1
      = some (InvalidHandle, stC4, []) :=
  ⟨(c10_openbulk_out_param_zero env0 stC4 ("unknownresource/file.txt".toList)).1,
   (c10_openbulk_out_param_zero env0 stC4 ("unknownresource/file.txt".toList)).2
      (by decide)⟩

end RCD
